import Mathlib

/-!
Shallow embedding of the FFmpeg transcoding service of this repository
(the `FFmpegService` class in the main process and the IPC event bridge
in `packages/electron-ipc/src/ipc-config.ts`), together with proofs
about it.

JavaScript numbers are modelled exactly: `JRat` is a normalized rational
(kept in lowest terms with nonnegative denominator by its smart
constructor, so structural equality is value equality and everything
evaluates inside the kernel), and `JSNum` adds NaN.  The modelling is at
real-number precision, which is faithful on every value these functions
are applied to below.  JavaScript string processing is modelled on
`List Char`: a `String` argument is converted with `toList` and handled
by structural functions.
-/

/-- An exact rational value: numerator and (positive) denominator.  All
values are built through `ratNorm`, which puts them in lowest terms, so
derived structural equality decides value equality. -/
structure JRat where
  num : Int
  den : Nat
deriving DecidableEq, Repr

/-- Normalize `n / d` to lowest terms with a nonnegative denominator.
(`d = 0` never occurs in the embedded code paths; it is mapped to the
junk value `⟨0, 0⟩`.) -/
def ratNorm (n d : Int) : JRat :=
  let n' := if d < 0 then -n else n
  let dn := d.natAbs
  let g := Nat.gcd n'.natAbs dn
  if g = 0 then ⟨0, 0⟩ else ⟨n' / (g : Int), dn / g⟩

/-- The integer `n` as a `JRat`. -/
def JRat.ofInt (n : Int) : JRat := ⟨n, 1⟩

instance (n : Nat) : OfNat JRat n := ⟨JRat.ofInt n⟩

/-- Exact addition. -/
def JRat.add (a b : JRat) : JRat :=
  ratNorm (a.num * b.den + b.num * a.den) ((a.den : Int) * b.den)

/-- Exact multiplication. -/
def JRat.mul (a b : JRat) : JRat :=
  ratNorm (a.num * b.num) ((a.den : Int) * b.den)

/-- Exact division (the embedded code only divides by nonzero values). -/
def JRat.div (a b : JRat) : JRat :=
  ratNorm (a.num * b.den) ((a.den : Int) * b.num)

/-- Exact negation. -/
def JRat.neg (a : JRat) : JRat := ⟨-a.num, a.den⟩

/-- A JavaScript number: either an ordinary (exact rational) value or
NaN.  Infinities do not arise in the modelled code paths. -/
inductive JSNum where
  | num (q : JRat)
  | nan
deriving DecidableEq, Repr

/-- JS addition: NaN propagates. -/
def jsAdd : JSNum → JSNum → JSNum
  | .num a, .num b => .num (a.add b)
  | _, _ => .nan

/-- JS multiplication: NaN propagates. -/
def jsMul : JSNum → JSNum → JSNum
  | .num a, .num b => .num (a.mul b)
  | _, _ => .nan

/-- JS division by a nonzero ordinary number: NaN propagates from the
numerator.  (The embedded code only divides under a guard that the
denominator is truthy, i.e. a nonzero non-NaN number, so this partial
model of JS division is applied exactly on its faithful domain.) -/
def jsDiv : JSNum → JRat → JSNum
  | .num a, b => .num (a.div b)
  | .nan, _ => .nan

/-- Model of JS `String.prototype.split` with a one-character separator:
splits into the (possibly empty) chunks between separator occurrences.
Like in JS, the result is never the empty list: splitting the empty
string gives `[[]]`. -/
def splitSep (sep : Char) : List Char → List (List Char)
  | [] => [[]]
  | c :: rest =>
      let r := splitSep sep rest
      if c = sep then [] :: r
      else
        match r with
        | g :: gs => (c :: g) :: gs
        | [] => [[c]]

/-- Model of JS `String.prototype.trim`: strip leading and trailing
whitespace. -/
def trimChars (cs : List Char) : List Char :=
  ((cs.dropWhile Char.isWhitespace).reverse.dropWhile Char.isWhitespace).reverse

/-- Numeric value of a list of decimal digit characters (the empty list
counts as 0, as for the integer or fraction part of a JS decimal
literal). -/
def digitsVal (cs : List Char) : ℕ :=
  cs.foldl (fun a c => a * 10 + (c.toNat - 48)) 0

/-- Parse an unsigned JS decimal literal `digits [. digits]` (at least one
digit overall) as an exact rational. -/
def parseUnsignedDec (cs : List Char) : Option JRat :=
  let ip := cs.takeWhile Char.isDigit
  let rest := cs.dropWhile Char.isDigit
  match rest with
  | [] => if ip.isEmpty then none else some (JRat.ofInt (digitsVal ip))
  | '.' :: fp =>
      if fp.all Char.isDigit ∧ ¬(ip.isEmpty ∧ fp.isEmpty) then
        some ((JRat.ofInt (digitsVal ip)).add
          ((JRat.ofInt (digitsVal fp)).div (JRat.ofInt ((10 : Nat) ^ fp.length))))
      else none
  | _ => none

/-- Model of the JS `Number(string)` conversion on the strings the
service feeds it: surrounding whitespace is trimmed, the empty string
converts to 0, a signed decimal literal converts to its exact value, and
every other string converts to NaN.  (Exponent, hexadecimal and Infinity
literal forms, which never occur in ffmpeg progress or frame-rate
fields, are not modelled and fall in the NaN case.) -/
def jsNumberChars (cs : List Char) : JSNum :=
  let t := trimChars cs
  if t.isEmpty then .num 0
  else
    match t with
    | '+' :: rest =>
        match parseUnsignedDec rest with
        | some q => .num q
        | none => .nan
    | '-' :: rest =>
        match parseUnsignedDec rest with
        | some q => .num q.neg
        | none => .nan
    | other =>
        match parseUnsignedDec other with
        | some q => .num q
        | none => .nan

/-- `Number` applied to a Lean `String`. -/
def jsNumber (s : String) : JSNum :=
  jsNumberChars s.toList

/-- `FFmpegService.parseFps` (src/unnamed/part_003, second copy, lines
686-689):
`const [numerator, denominator] = fpsString.split('/').map(Number);
 return denominator ? numerator / denominator : 0;`
A missing second field destructures to `undefined`, which is falsy, as
are the numbers 0 and NaN; only with a truthy denominator is the
division performed. -/
def parseFps (s : String) : JSNum :=
  let nums := (splitSep '/' s.toList).map jsNumberChars
  match nums with
  | [] => .num 0
  | [_] => .num 0
  | n :: d :: _ =>
      match d with
      | .nan => .num 0
      | .num q => if q = 0 then .num 0 else jsDiv n q

/-- `FFmpegService.parseTime` (src/unnamed/part_003, second copy, lines
694-701): split on `:`; when there are exactly three parts, convert each
with `Number` and return `hours*3600 + minutes*60 + seconds`; otherwise
return 0. -/
def parseTime (s : String) : JSNum :=
  let parts := splitSep ':' s.toList
  if parts.length = 3 then
    match parts.map jsNumberChars with
    | [h, m, sec] => jsAdd (jsAdd (jsMul h (.num 3600)) (jsMul m (.num 60))) sec
    | _ => .num 0
  else .num 0

/-- True when the JS test `!path || !path.trim()` rejects the path, i.e.
the string is empty or whitespace-only (`FFmpegService.validateFilePath`,
src/unnamed/part_003, second copy, lines 644-648). -/
def pathBlank (s : String) : Bool :=
  (trimChars s.toList).isEmpty

/-- The unit names of `FFmpegService.formatBytes`. -/
def byteSizes : List String := ["Bytes", "KB", "MB", "GB"]

/-- Round a nonnegative exact rational to the nearest integer, halves
away from zero (the rounding JS `toFixed` performs, modelled at real
precision). -/
def roundHalfUp (q : JRat) : Int :=
  (2 * q.num + (q.den : Int)) / (2 * (q.den : Int))

/-- Render `n / 100` (with `n ≥ 0`) the way
`parseFloat(x.toFixed(2)).toString()` does: at most two decimals,
trailing zeros and a trailing decimal point dropped. -/
def decString (n : Int) : String :=
  let ip := n / 100
  let fp := (n % 100).toNat
  if fp = 0 then toString ip
  else if fp % 10 = 0 then toString ip ++ "." ++ toString (fp / 10)
  else if fp < 10 then toString ip ++ ".0" ++ toString fp
  else toString ip ++ "." ++ toString fp

/-- `FFmpegService.formatBytes` (src/unnamed/part_003, second copy, lines
673-681), modelled at real precision: 0 maps to "0 Bytes"; otherwise the
byte count is scaled by 1024^i for `i = floor(log_1024 bytes)`, rendered
with two decimals, and suffixed with the i-th unit name (an index past
the table renders JS `undefined`). -/
def formatBytes (bytes : Nat) : String :=
  if bytes = 0 then "0 Bytes"
  else
    let i := Nat.log 1024 bytes
    let scaled := (JRat.ofInt bytes).div (JRat.ofInt (((1024 : Nat) ^ i : Nat)))
    decString (roundHalfUp (scaled.mul 100)) ++ " " ++ (byteSizes[i]?.getD "undefined")

deriving instance DecidableEq for Except

/-- The ways `getVideoInfo` can reject. -/
inductive ProbeError where
  | emptyPath
  | notFound
  | timeout
  | noVideoStream
deriving DecidableEq, Repr

/-- One entry of `metadata.streams` as consumed by `getVideoInfo`:
`codec_type`, `codec_name`, `width`, `height`, `r_frame_rate` (optional
fields may be `undefined`). -/
structure StreamInfo where
  codec_type : String
  codec_name : Option String := none
  width : Option Int := none
  height : Option Int := none
  r_frame_rate : Option String := none
deriving DecidableEq, Repr

/-- The `metadata.format` fields consumed by `getVideoInfo`. -/
structure FormatInfo where
  duration : Option JRat := none
  size : Option Nat := none
  bit_rate : Option Nat := none
deriving DecidableEq, Repr

/-- The ffprobe metadata consumed by `getVideoInfo`. -/
structure Metadata where
  streams : List StreamInfo
  format : FormatInfo
deriving DecidableEq, Repr

/-- The `VideoInfo` record resolved by `getVideoInfo`. -/
structure VideoInfo where
  duration : JRat
  size : String
  bitrate : String
  codec : String
  resolution : String
  fps : JSNum
deriving DecidableEq, Repr

/-- What the ffprobe invocation reports back: a failure (any error
object) or metadata. -/
inductive ProbeReply where
  | failure
  | success (md : Metadata)
deriving DecidableEq, Repr

/-- The fixed probe timeout, in milliseconds (src/unnamed/part_003,
second copy, line 415). -/
def probeTimeoutMs : Nat := 30000

/-- JS `x || d` on an optional string: `undefined` and `""` are falsy. -/
def jsOrStr (o : Option String) (d : String) : String :=
  match o with
  | some s => if s = "" then d else s
  | none => d

/-- JS template interpolation of a possibly-`undefined` number. -/
def optIntStr : Option Int → String
  | some n => toString n
  | none => "undefined"

/-- The degraded estimate `getVideoInfo` resolves with when ffprobe
fails on an existing file (src/unnamed/part_003, second copy, lines
420-431): fixed placeholder values, with only the size derived from the
file's actual byte count. -/
def fallbackInfo (sz : Nat) : VideoInfo :=
  { duration := ratNorm 61 2
    size := formatBytes sz
    bitrate := "1000000"
    codec := "h264"
    resolution := "1920x1080"
    fps := .num 30 }

/-- The `VideoInfo` built from successful ffprobe metadata and the video
stream found in it (src/unnamed/part_003, second copy, lines 439-446);
`||` fallbacks on the individual fields are modelled by `jsOrStr` /
`getD`. -/
def infoOfStream (md : Metadata) (vs : StreamInfo) : VideoInfo :=
  { duration := md.format.duration.getD 0
    size := formatBytes (md.format.size.getD 0)
    bitrate := toString (md.format.bit_rate.getD 0)
    codec := jsOrStr vs.codec_name "unknown"
    resolution := optIntStr vs.width ++ "x" ++ optIntStr vs.height
    fps := parseFps (jsOrStr vs.r_frame_rate "0/1") }

/-- `FFmpegService.getVideoInfo` (src/unnamed/part_003, second copy,
lines 405-449).  The filesystem is a map from path to byte size of the
existing files; `delayMs` is how long the ffprobe callback takes, raced
against the 30-second timer; `reply` is what the callback delivers.
A blank path is rejected by `validateFilePath`; a missing file is
rejected before the probe; on probe failure the promise resolves with
the degraded fallback built from the file's byte size; metadata without
a `codec_type = "video"` stream is rejected; otherwise the metadata is
converted to a `VideoInfo`. -/
def getVideoInfo (path : String) (fsSize : String → Option Nat)
    (delayMs : Nat) (reply : ProbeReply) : Except ProbeError VideoInfo :=
  if pathBlank path then .error .emptyPath
  else
    match fsSize path with
    | none => .error .notFound
    | some sz =>
        if probeTimeoutMs ≤ delayMs then .error .timeout
        else
          match reply with
          | .failure => .ok (fallbackInfo sz)
          | .success md =>
              match md.streams.find? (fun st => st.codec_type == "video") with
              | none => .error .noVideoStream
              | some vs => .ok (infoOfStream md vs)

/-- The quality tiers of `ConversionOptions`. -/
inductive Quality where
  | low
  | medium
  | high
deriving DecidableEq, Repr

/-- The target formats of `ConversionOptions`. -/
inductive VFormat where
  | mp4
  | avi
  | mov
  | webm
  | gif
deriving DecidableEq, Repr

/-- The audio-extraction formats. -/
inductive AudioFormat where
  | mp3
  | wav
  | aac
deriving DecidableEq, Repr

/-- `ConversionOptions` (src/unnamed/part_003, second copy, lines
358-365): optional fields may be `undefined`. -/
structure ConversionOptions where
  inputPath : String
  outputPath : String
  format : VFormat
  quality : Option Quality := none
  resolution : Option String := none
  fps : Option JRat := none
deriving DecidableEq, Repr

/-- The state a fluent-ffmpeg command accumulates from the builder calls
`FFmpegService` makes: input/output, bitrates, size, fps, codecs and raw
output options. -/
structure Cmd where
  input : Option String := none
  output : Option String := none
  videoBitrate : Option String := none
  audioBitrate : Option String := none
  sizeOpt : Option String := none
  fpsOpt : Option JRat := none
  videoCodec : Option String := none
  audioCodec : Option String := none
  outputOptions : List String := []
deriving DecidableEq, Repr

/-- The fixed bitrate table of `FFmpegService.applyQualitySettings`
(src/unnamed/part_003, second copy, lines 605-609): video bitrate and
audio bitrate per tier. -/
def qualitySettings : Quality → String × String
  | .low => ("500k", "128k")
  | .medium => ("1000k", "192k")
  | .high => ("2000k", "320k")

/-- `FFmpegService.applyQualitySettings` (src/unnamed/part_003, second
copy, lines 604-627): pick the tier (`options.quality || 'medium'`), set
the bitrate pair, apply resolution and fps overrides when truthy, then
the format-specific options: GIF appends the fixed `-vf` filter chain,
WEBM selects the `libvpx-vp9`/`libvorbis` codec pair, and other formats
add nothing. -/
def applyQualitySettings (c : Cmd) (o : ConversionOptions) : Cmd :=
  let s := qualitySettings (o.quality.getD .medium)
  let c := { c with videoBitrate := some s.1, audioBitrate := some s.2 }
  let c :=
    match o.resolution with
    | some r => if r = "" then c else { c with sizeOpt := some r }
    | none => c
  let c :=
    match o.fps with
    | some f => if f = 0 then c else { c with fpsOpt := some f }
    | none => c
  if o.format = .gif then
    { c with outputOptions := c.outputOptions ++ ["-vf", "fps=10,scale=320:-1:flags=lanczos"] }
  else if o.format = .webm then
    { c with videoCodec := some "libvpx-vp9", audioCodec := some "libvorbis" }
  else c

/-- The fresh command `convertVideo` creates before applying quality
settings: `ffmpeg(options.inputPath).output(options.outputPath)`
(src/unnamed/part_003, second copy, lines 466-467). -/
def initConvertCmd (o : ConversionOptions) : Cmd :=
  { input := some o.inputPath, output := some o.outputPath }

/-- The complete command `convertVideo` runs. -/
def buildConvertCmd (o : ConversionOptions) : Cmd :=
  applyQualitySettings (initConvertCmd o) o

/-- `FFmpegService.getAudioCodec` (src/unnamed/part_003, second copy,
lines 632-639). -/
def getAudioCodec : AudioFormat → String
  | .mp3 => "libmp3lame"
  | .wav => "pcm_s16le"
  | .aac => "aac"

/-- The synchronous failures of the job operations. -/
inductive JobError where
  | busy
  | emptyPath
  | notFound
deriving DecidableEq, Repr

/-- The service's lifecycle events (`conversion-started`,
`conversion-start`, `conversion-progress`, `conversion-completed`,
`conversion-error`, `conversion-stopped`). -/
inductive Ev where
  | started
  | startCmd
  | progress
  | completed
  | errored
  | stopped
deriving DecidableEq, Repr

/-- What one operation call does synchronously: its result (the built
command on success), the `isProcessing` flag after the call, how many
subprocesses it spawned, and the events it emitted. -/
structure OpOutcome (α : Type) where
  result : Except JobError α
  isProcessing : Bool
  spawned : Nat
  events : List Ev
deriving DecidableEq, Repr

/-- `FFmpegService.validateFileExists` (src/unnamed/part_003, second
copy, lines 653-658): blank path, then existence, against the filesystem
`fs` (the set of existing paths). -/
def validateFileExists (fs : String → Bool) (p : String) : Except JobError Unit :=
  if pathBlank p then .error .emptyPath
  else if fs p then .ok () else .error .notFound

/-- The merge command `mergeVideos` assembles: one `input` per given
path, then `mergeToFile(outputPath, '/tmp')`. -/
structure MergeCmd where
  inputs : List String
  output : String
deriving DecidableEq, Repr

/-- The thumbnail command `generateThumbnail` assembles:
`ffmpeg(videoPath).seekInput(timeOffset).frames(1).output(outputPath)`. -/
structure ThumbCmd where
  input : String
  seek : JRat
  frames : Nat
  output : String
deriving DecidableEq, Repr

/-- The audio-extraction command `extractAudio` assembles:
`ffmpeg(videoPath).noVideo().audioCodec(codec).output(outputPath)`. -/
structure AudioCmd where
  input : String
  noVideo : Bool
  codec : String
  output : String
deriving DecidableEq, Repr

/-- `FFmpegService.convertVideo` admission (src/unnamed/part_003, second
copy, lines 454-495), given the `isProcessing` flag: when the flag is
set the call throws busy at once; otherwise the input is validated (and
the output directory ensured), the flag is set, `conversion-started` is
emitted, and the built command is spawned with `run()`. -/
def convertVideoStart (flag : Bool) (fs : String → Bool)
    (o : ConversionOptions) : OpOutcome Cmd :=
  if flag then ⟨.error .busy, flag, 0, []⟩
  else
    match validateFileExists fs o.inputPath with
    | .error e => ⟨.error e, flag, 0, []⟩
    | .ok _ => ⟨.ok (buildConvertCmd o), true, 1, [.started]⟩

/-- `FFmpegService.compressVideo` (src/unnamed/part_003, second copy,
lines 547-558): delegates to `convertVideo` with format mp4 and the
given quality tier. -/
def compressVideoStart (flag : Bool) (fs : String → Bool)
    (inputPath outputPath : String) (quality : Quality) : OpOutcome Cmd :=
  convertVideoStart flag fs
    { inputPath := inputPath, outputPath := outputPath
      format := .mp4, quality := some quality }

/-- `FFmpegService.generateThumbnail` (src/unnamed/part_003, second
copy, lines 501-518): validates the input, then spawns the thumbnail
command; the `isProcessing` flag is never consulted or changed. -/
def generateThumbnailStart (flag : Bool) (fs : String → Bool)
    (videoPath outputPath : String) (timeOffset : JRat) : OpOutcome ThumbCmd :=
  match validateFileExists fs videoPath with
  | .error e => ⟨.error e, flag, 0, []⟩
  | .ok _ =>
      ⟨.ok ⟨videoPath, timeOffset, 1, outputPath⟩, flag, 1, []⟩

/-- `FFmpegService.extractAudio` (src/unnamed/part_003, second copy,
lines 523-542): validates the input, then spawns the no-video command
with the codec chosen by `getAudioCodec`; the `isProcessing` flag is
never consulted or changed. -/
def extractAudioStart (flag : Bool) (fs : String → Bool)
    (videoPath outputPath : String) (format : AudioFormat) : OpOutcome AudioCmd :=
  match validateFileExists fs videoPath with
  | .error e => ⟨.error e, flag, 0, []⟩
  | .ok _ =>
      ⟨.ok ⟨videoPath, true, getAudioCodec format, outputPath⟩, flag, 1, []⟩

/-- The `for` loop of `mergeVideos` validating each input in order
(src/unnamed/part_003, second copy, lines 564-566). -/
def validateAll (fs : String → Bool) : List String → Except JobError Unit
  | [] => .ok ()
  | p :: rest =>
      match validateFileExists fs p with
      | .error e => .error e
      | .ok _ => validateAll fs rest

/-- `FFmpegService.mergeVideos` (src/unnamed/part_003, second copy,
lines 563-582): validates every given input (an empty list passes
vacuously), then builds the multi-input command and spawns it with
`mergeToFile`; the `isProcessing` flag is never consulted or changed. -/
def mergeVideosStart (flag : Bool) (fs : String → Bool)
    (videoPaths : List String) (outputPath : String) : OpOutcome MergeCmd :=
  match validateAll fs videoPaths with
  | .error e => ⟨.error e, flag, 0, []⟩
  | .ok _ => ⟨.ok ⟨videoPaths, outputPath⟩, flag, 1, []⟩

/-- `FFmpegService.isCurrentlyProcessing` (src/unnamed/part_003, second
copy, lines 597-599): returns the flag. -/
def isCurrentlyProcessing (flag : Bool) : Bool := flag

/-- The shared state relevant to stopping: the service's `isProcessing`
flag and whether the ffmpeg subprocess of the current conversion is
still alive. -/
structure Sys where
  isProcessing : Bool
  procAlive : Bool
deriving DecidableEq, Repr

/-- The state right after `convertVideo` admits a job: the flag is set
and the spawned subprocess is alive. -/
def runningConversion : Sys := ⟨true, true⟩

/-- `FFmpegService.stopProcessing` (src/unnamed/part_003, second copy,
lines 587-592): when the flag is set, clear it and emit
`conversion-stopped`; otherwise do nothing.  The method body contains no
call that terminates the subprocess, so `procAlive` is untouched. -/
def stopProcessing (s : Sys) : Sys × List Ev :=
  if s.isProcessing then ({ s with isProcessing := false }, [.stopped])
  else (s, [])

/-- What the `progress` handler installed by `convertVideo`
(src/unnamed/part_003, second copy, lines 471-481) emits when the
subprocess produces a progress report: the handler emits
`conversion-progress` unconditionally, so a progress report arrives and
is forwarded exactly when the subprocess is still alive. -/
def progressCallbackEvents (s : Sys) : List Ev :=
  if s.procAlive then [.progress] else []

/-- The observer window of the event bridge. -/
structure MainWindow where
  destroyed : Bool
deriving DecidableEq, Repr

/-- The five lifecycle signals of the Job Supervisor as named by the
spec: started, progress, completed, error, stopped. -/
inductive LifeSignal where
  | started
  | progress
  | completed
  | errored
  | stopped
deriving DecidableEq, Repr

/-- Which lifecycle signals `IpcConfig.setupFFmpegHandlers` registers a
forwarder for (packages/electron-ipc/src/ipc-config.ts, lines 249-267):
only `conversion-progress`, `conversion-completed` and
`conversion-error`; no listener exists for `conversion-started` or
`conversion-stopped`. -/
def bridgeForwards : LifeSignal → Bool
  | .progress => true
  | .completed => true
  | .errored => true
  | _ => false

/-- Whether a signal reaches the renderer: a registered forwarder runs
`if (this.mainWindow && !this.mainWindow.isDestroyed()) send(...)`, and
a signal without a forwarder is never sent.  The function is total: no
case raises. -/
def bridgeDeliver (win : Option MainWindow) (sig : LifeSignal) : Bool :=
  bridgeForwards sig &&
    (match win with
     | some w => !w.destroyed
     | none => false)

theorem validateFileExists_ne_busy (fs : String → Bool) (p : String) :
    validateFileExists fs p ≠ .error .busy := by
  unfold validateFileExists
  split
  · decide
  · split <;> decide

theorem validateAll_ne_busy (fs : String → Bool) (ps : List String) :
    validateAll fs ps ≠ .error .busy := by
  induction ps with
  | nil => simp [validateAll]
  | cons p rest ih =>
      simp only [validateAll]
      cases h : validateFileExists fs p with
      | error e =>
          intro hc
          cases hc
          exact validateFileExists_ne_busy fs p h
      | ok u => exact ih

/-- Claim C1, counterexample: as stated, the claim fails on the code: a merge started while a
conversion is Running (`isProcessing = true`) is not rejected with Busy
and spawns a subprocess; thumbnail and audio extraction behave the same
way. -/
theorem c1_busy_gate_cex :
    (mergeVideosStart true (fun _ => true) ["a.mp4"] "out.mp4").result ≠
        Except.error JobError.busy ∧
    (mergeVideosStart true (fun _ => true) ["a.mp4"] "out.mp4").spawned = 1 ∧
    (generateThumbnailStart true (fun _ => true) "a.mp4" "t.png" 10).result ≠
        Except.error JobError.busy ∧
    (extractAudioStart true (fun _ => true) "a.mp4" "a.mp3" AudioFormat.mp3).result ≠
        Except.error JobError.busy := by
  decide

/-- Claim C1, amended: while Running, `convertVideo` and `compressVideo`
fail fast with Busy, leave the `isProcessing` flag set, spawn nothing
and emit nothing; `mergeVideos`, `generateThumbnail` and `extractAudio`
are not gated by the flag and are never rejected with Busy. -/
theorem c1_busy_gate_amended (fs : String → Bool) (o : ConversionOptions)
    (ip op2 : String) (q : Quality) (paths : List String)
    (out vp ap tp : String) (t : JRat) (af : AudioFormat) :
    convertVideoStart true fs o = ⟨.error .busy, true, 0, []⟩ ∧
    compressVideoStart true fs ip op2 q = ⟨.error .busy, true, 0, []⟩ ∧
    (mergeVideosStart true fs paths out).result ≠ .error .busy ∧
    (generateThumbnailStart true fs vp tp t).result ≠ .error .busy ∧
    (extractAudioStart true fs vp ap af).result ≠ .error .busy := by
  refine ⟨rfl, rfl, ?_, ?_, ?_⟩
  · unfold mergeVideosStart
    cases h : validateAll fs paths with
    | error e =>
        simp only [h]
        intro hc
        cases hc
        exact validateAll_ne_busy fs paths h
    | ok u => simp
  · unfold generateThumbnailStart
    cases h : validateFileExists fs vp with
    | error e =>
        simp only [h]
        intro hc
        cases hc
        exact validateFileExists_ne_busy fs vp h
    | ok u => simp
  · unfold extractAudioStart
    cases h : validateFileExists fs vp with
    | error e =>
        simp only [h]
        intro hc
        cases hc
        exact validateFileExists_ne_busy fs vp h
    | ok u => simp

/-- Claim C9: `mergeVideos`, `generateThumbnail` and `extractAudio` never read
or mutate the `isProcessing` flag: each call's outcome is the outcome
with the flag cleared, except that the flag keeps whatever value it had,
and `isCurrentlyProcessing` reads the same value before, during and
after; in particular these operations are admitted even while a
convert/compress job is Running. -/
theorem c9_side_ops_ignore_flag (flag : Bool) (fs : String → Bool)
    (paths : List String) (out vp ap tp : String) (t : JRat) (af : AudioFormat) :
    mergeVideosStart flag fs paths out =
        { mergeVideosStart false fs paths out with isProcessing := flag } ∧
    generateThumbnailStart flag fs vp tp t =
        { generateThumbnailStart false fs vp tp t with isProcessing := flag } ∧
    extractAudioStart flag fs vp ap af =
        { extractAudioStart false fs vp ap af with isProcessing := flag } ∧
    (mergeVideosStart flag fs paths out).isProcessing = flag ∧
    (generateThumbnailStart flag fs vp tp t).isProcessing = flag ∧
    (extractAudioStart flag fs vp ap af).isProcessing = flag ∧
    isCurrentlyProcessing flag = flag := by
  refine ⟨?_, ?_, ?_, ?_, ?_, ?_, rfl⟩
  · unfold mergeVideosStart
    cases h : validateAll fs paths <;> simp [h]
  · unfold generateThumbnailStart
    cases h : validateFileExists fs vp <;> simp [h]
  · unfold extractAudioStart
    cases h : validateFileExists fs vp <;> simp [h]
  · unfold mergeVideosStart
    cases h : validateAll fs paths <;> simp [h]
  · unfold generateThumbnailStart
    cases h : validateFileExists fs vp <;> simp [h]
  · unfold extractAudioStart
    cases h : validateFileExists fs vp <;> simp [h]

/-- Claim C3: the claim is right about the intended behavior, but
`stopProcessing` does not terminate the subprocess: on the state right
after a conversion was admitted, stopping clears the flag and emits
exactly one `conversion-stopped`, yet the subprocess stays alive and a
subsequent progress report still emits `conversion-progress`; stopping
while not Running is a no-op emitting nothing. -/
theorem c3_stop_leaves_subprocess_alive :
    stopProcessing runningConversion = (⟨false, true⟩, [Ev.stopped]) ∧
    (stopProcessing runningConversion).1.isProcessing = false ∧
    (stopProcessing runningConversion).1.procAlive = true ∧
    progressCallbackEvents (stopProcessing runningConversion).1 = [Ev.progress] ∧
    stopProcessing ⟨false, false⟩ = (⟨false, false⟩, []) := by
  decide

/-- Claim C2: for an existing file (under a well-formed, non-blank path) the
probe never surfaces a probe error: the timeout is 30 seconds; the
degraded fallback carries the fixed duration 30.5, resolution
"1920x1080", fps 30, codec "h264", bitrate "1000000" and the size
formatted from the file's actual byte count; a missing file rejects with
NotFound; a probe outrun by the 30-second timer rejects with Timeout
(never converted to the fallback); an ffprobe failure within the bound
resolves with the fallback; metadata without a video stream rejects with
NoVideoStream; metadata with one resolves with the extracted info; and
every rejection is one of NotFound, Timeout, NoVideoStream. -/
theorem c2_probe_policy (path : String) (fsSize : String → Option Nat)
    (delayMs : Nat) (reply : ProbeReply) (hp : pathBlank path = false) :
    probeTimeoutMs = 30000 ∧
    (∀ sz : Nat,
        (fallbackInfo sz).duration = ratNorm 61 2 ∧
        (fallbackInfo sz).resolution = "1920x1080" ∧
        (fallbackInfo sz).fps = .num 30 ∧
        (fallbackInfo sz).codec = "h264" ∧
        (fallbackInfo sz).bitrate = "1000000" ∧
        (fallbackInfo sz).size = formatBytes sz) ∧
    (fsSize path = none → getVideoInfo path fsSize delayMs reply = .error .notFound) ∧
    (∀ sz : Nat, fsSize path = some sz → probeTimeoutMs ≤ delayMs →
        getVideoInfo path fsSize delayMs reply = .error .timeout) ∧
    (∀ sz : Nat, fsSize path = some sz → delayMs < probeTimeoutMs → reply = .failure →
        getVideoInfo path fsSize delayMs reply = .ok (fallbackInfo sz)) ∧
    (∀ sz : Nat, ∀ md : Metadata, fsSize path = some sz → delayMs < probeTimeoutMs →
        reply = .success md →
        md.streams.find? (fun st => st.codec_type == "video") = none →
        getVideoInfo path fsSize delayMs reply = .error .noVideoStream) ∧
    (∀ sz : Nat, ∀ md : Metadata, ∀ vs : StreamInfo, fsSize path = some sz →
        delayMs < probeTimeoutMs → reply = .success md →
        md.streams.find? (fun st => st.codec_type == "video") = some vs →
        getVideoInfo path fsSize delayMs reply = .ok (infoOfStream md vs)) ∧
    (∀ e : ProbeError, getVideoInfo path fsSize delayMs reply = .error e →
        e = .notFound ∨ e = .timeout ∨ e = .noVideoStream) := by
  refine ⟨rfl, fun sz => ⟨rfl, rfl, rfl, rfl, rfl, rfl⟩, ?_, ?_, ?_, ?_, ?_, ?_⟩
  · intro hfs
    simp [getVideoInfo, hp, hfs]
  · intro sz hfs hle
    simp [getVideoInfo, hp, hfs, hle]
  · intro sz hfs hlt hr
    have hnle : ¬probeTimeoutMs ≤ delayMs := Nat.not_le_of_lt hlt
    simp [getVideoInfo, hp, hfs, hnle, hr]
  · intro sz md hfs hlt hr hstream
    have hnle : ¬probeTimeoutMs ≤ delayMs := Nat.not_le_of_lt hlt
    simp [getVideoInfo, hp, hfs, hnle, hr, hstream]
  · intro sz md vs hfs hlt hr hstream
    have hnle : ¬probeTimeoutMs ≤ delayMs := Nat.not_le_of_lt hlt
    simp [getVideoInfo, hp, hfs, hnle, hr, hstream]
  · intro e he
    simp only [getVideoInfo, hp, Bool.false_eq_true, if_false] at he
    split at he
    · cases he
      exact Or.inl rfl
    · split at he
      · cases he
        exact Or.inr (Or.inl rfl)
      · split at he
        · cases he
        · split at he
          · cases he
            exact Or.inr (Or.inr rfl)
          · cases he

/-- Witness for C2 at a concrete existing file of 1000 bytes whose probe
fails immediately: the call resolves with the degraded fallback. -/
theorem c2_probe_policy_witness :
    pathBlank "a.mp4" = false ∧
    getVideoInfo "a.mp4" (fun p => if p = "a.mp4" then some 1000 else none) 0 .failure =
        .ok (fallbackInfo 1000) := by
  refine ⟨by decide, ?_⟩
  exact (c2_probe_policy "a.mp4" (fun p => if p = "a.mp4" then some 1000 else none) 0
    .failure (by decide)).2.2.2.2.1 1000 (by decide) (by decide) rfl

/-- Claim C4: for every conversion/compression request the built command
carries exactly the tier's bitrate pair: low gives video 500k / audio
128k, medium 1000k / 192k, high 2000k / 320k, and an unset quality
option gives the medium pair. -/
theorem c4_quality_tiers (c : Cmd) (i o : String) (fmt : VFormat)
    (r : Option String) (f : Option JRat) :
    (applyQualitySettings c ⟨i, o, fmt, some .low, r, f⟩).videoBitrate = some "500k" ∧
    (applyQualitySettings c ⟨i, o, fmt, some .low, r, f⟩).audioBitrate = some "128k" ∧
    (applyQualitySettings c ⟨i, o, fmt, some .medium, r, f⟩).videoBitrate = some "1000k" ∧
    (applyQualitySettings c ⟨i, o, fmt, some .medium, r, f⟩).audioBitrate = some "192k" ∧
    (applyQualitySettings c ⟨i, o, fmt, some .high, r, f⟩).videoBitrate = some "2000k" ∧
    (applyQualitySettings c ⟨i, o, fmt, some .high, r, f⟩).audioBitrate = some "320k" ∧
    (applyQualitySettings c ⟨i, o, fmt, none, r, f⟩).videoBitrate = some "1000k" ∧
    (applyQualitySettings c ⟨i, o, fmt, none, r, f⟩).audioBitrate = some "192k" := by
  refine ⟨?_, ?_, ?_, ?_, ?_, ?_, ?_, ?_⟩ <;>
  · unfold applyQualitySettings
    repeat' split
    all_goals rfl

set_option maxHeartbeats 1600000 in
/-- Claim C8: a gif target makes the built conversion command carry exactly
the fixed `-vf fps=10,scale=320:-1:flags=lanczos` filter chain and no
explicit codec pair; a webm target selects `libvpx-vp9`/`libvorbis` and
no filter chain; every other target carries neither the filter chain nor
an explicit codec pair. -/
theorem c8_format_specific (i o : String) (q : Option Quality)
    (r : Option String) (f : Option JRat) :
    (buildConvertCmd ⟨i, o, .gif, q, r, f⟩).outputOptions =
        ["-vf", "fps=10,scale=320:-1:flags=lanczos"] ∧
    (buildConvertCmd ⟨i, o, .gif, q, r, f⟩).videoCodec = none ∧
    (buildConvertCmd ⟨i, o, .gif, q, r, f⟩).audioCodec = none ∧
    (buildConvertCmd ⟨i, o, .webm, q, r, f⟩).videoCodec = some "libvpx-vp9" ∧
    (buildConvertCmd ⟨i, o, .webm, q, r, f⟩).audioCodec = some "libvorbis" ∧
    (buildConvertCmd ⟨i, o, .webm, q, r, f⟩).outputOptions = [] ∧
    (buildConvertCmd ⟨i, o, .mp4, q, r, f⟩).outputOptions = [] ∧
    (buildConvertCmd ⟨i, o, .mp4, q, r, f⟩).videoCodec = none ∧
    (buildConvertCmd ⟨i, o, .mp4, q, r, f⟩).audioCodec = none ∧
    (buildConvertCmd ⟨i, o, .avi, q, r, f⟩).outputOptions = [] ∧
    (buildConvertCmd ⟨i, o, .avi, q, r, f⟩).videoCodec = none ∧
    (buildConvertCmd ⟨i, o, .avi, q, r, f⟩).audioCodec = none ∧
    (buildConvertCmd ⟨i, o, .mov, q, r, f⟩).outputOptions = [] ∧
    (buildConvertCmd ⟨i, o, .mov, q, r, f⟩).videoCodec = none ∧
    (buildConvertCmd ⟨i, o, .mov, q, r, f⟩).audioCodec = none := by
  refine ⟨?_, ?_, ?_, ?_, ?_, ?_, ?_, ?_, ?_, ?_, ?_, ?_, ?_, ?_, ?_⟩ <;>
  · unfold buildConvertCmd initConvertCmd applyQualitySettings
    repeat' split
    all_goals first | rfl | simp_all

theorem validateAll_ok (fs : String → Bool) (paths : List String)
    (h : ∀ p ∈ paths, pathBlank p = false ∧ fs p = true) :
    validateAll fs paths = .ok () := by
  induction paths with
  | nil => rfl
  | cons p rest ih =>
      obtain ⟨hb, hf⟩ := h p (List.mem_cons_self p rest)
      simp only [validateAll, validateFileExists, hb, hf]
      exact ih fun x hx => h x (List.mem_cons_of_mem p hx)

/-- Claim C5, counterexample: as stated, the claim fails on the code: a merge with the empty
input list is not rejected with InvalidRequest (or any error); the merge
command is built with zero inputs and a subprocess is spawned. -/
theorem c5_merge_empty_cex :
    (mergeVideosStart false (fun _ => true) ([] : List String) "out.mp4").result =
        .ok ⟨[], "out.mp4"⟩ ∧
    (mergeVideosStart false (fun _ => true) ([] : List String) "out.mp4").spawned = 1 := by
  decide

/-- Claim C5, amended: merge performs no non-emptiness check: for every input
list whose members are non-blank existing files — including the empty
list, which passes vacuously — the built command adds exactly the given
inputs in order, concatenates them into the single output, and one
subprocess is spawned. -/
theorem c5_merge_inputs (flag : Bool) (fs : String → Bool)
    (paths : List String) (out : String)
    (h : ∀ p ∈ paths, pathBlank p = false ∧ fs p = true) :
    (mergeVideosStart flag fs paths out).result = .ok ⟨paths, out⟩ ∧
    (mergeVideosStart flag fs paths out).spawned = 1 ∧
    (mergeVideosStart flag fs [] out).result = .ok ⟨[], out⟩ ∧
    (mergeVideosStart flag fs [] out).spawned = 1 := by
  have hv := validateAll_ok fs paths h
  refine ⟨?_, ?_, rfl, rfl⟩ <;> simp [mergeVideosStart, hv]

/-- Witness for C5 (amended) at a one-element list of an existing
file. -/
theorem c5_merge_inputs_witness :
    (∀ p ∈ ["a.mp4"], pathBlank p = false ∧ (fun (_ : String) => true) p = true) ∧
    (mergeVideosStart false (fun _ => true) ["a.mp4"] "o.mp4").result =
        .ok ⟨["a.mp4"], "o.mp4"⟩ := by
  have h : ∀ p ∈ ["a.mp4"], pathBlank p = false ∧ ((fun (_ : String) => true) p = true) := by
    decide
  exact ⟨h, (c5_merge_inputs false (fun _ => true) ["a.mp4"] "o.mp4" h).1⟩

/-- Claim C6, counterexample: as stated, the claim fails on the code: fractional seconds are
not truncated — "00:01:30.50" parses to 90.5, not 90 — and a malformed
mark with three fields, such as "aa:bb:cc", parses to NaN, not 0. -/
theorem c6_parse_time_cex :
    parseTime "00:01:30.50" = .num (ratNorm 181 2) ∧
    ratNorm 181 2 ≠ JRat.ofInt 90 ∧
    parseTime "aa:bb:cc" = .nan ∧
    JSNum.nan ≠ .num 0 := by
  decide

/-- Claim C6, amended: a time-mark splitting into exactly three fields that
all convert to numbers parses to hours*3600 + minutes*60 + seconds with
fractional seconds preserved (not truncated); a mark without exactly
three colon-separated fields parses to 0; a three-field mark with a
non-numeric field parses to NaN (not 0). -/
theorem c6_parse_time_fields (s : String) :
    ((splitSep ':' s.toList).length ≠ 3 → parseTime s = .num 0) ∧
    (∀ a b c : List Char, ∀ x y z : JRat,
        splitSep ':' s.toList = [a, b, c] →
        jsNumberChars a = .num x → jsNumberChars b = .num y → jsNumberChars c = .num z →
        parseTime s = .num (((x.mul 3600).add (y.mul 60)).add z)) ∧
    (∀ a b c : List Char,
        splitSep ':' s.toList = [a, b, c] →
        (jsNumberChars a = .nan ∨ jsNumberChars b = .nan ∨ jsNumberChars c = .nan) →
        parseTime s = .nan) := by
  refine ⟨?_, ?_, ?_⟩
  · intro h
    simp only [String.toList] at h
    simp [parseTime, h]
  · intro a b c x y z heq ha hb hc
    simp only [String.toList] at heq
    simp [parseTime, heq, ha, hb, hc, jsMul, jsAdd]
  · intro a b c heq hd
    simp only [String.toList] at heq
    cases hA : jsNumberChars a <;> cases hB : jsNumberChars b <;>
      cases hC : jsNumberChars c <;>
      simp_all [parseTime, jsMul, jsAdd]

/-- Witness for C6 (amended): a one-field mark parses to 0, and
"00:01:30" parses to 0*3600 + 1*60 + 30 = 90. -/
theorem c6_parse_time_fields_witness :
    parseTime "90" = .num 0 ∧
    parseTime "00:01:30" =
        .num ((((JRat.ofInt 0).mul 3600).add ((JRat.ofInt 1).mul 60)).add (JRat.ofInt 30)) := by
  refine ⟨(c6_parse_time_fields "90").1 (by decide), ?_⟩
  exact (c6_parse_time_fields "00:01:30").2.1 "00".toList "01".toList "30".toList
    (JRat.ofInt 0) (JRat.ofInt 1) (JRat.ofInt 30) (by decide) (by decide) (by decide) (by decide)

/-- Claim C7, counterexample: as stated, the claim fails on the code: with a live, undestroyed
window, a started signal and a stopped signal are still not delivered —
the bridge registers no forwarder for them. -/
theorem c7_bridge_cex :
    bridgeDeliver (some ⟨false⟩) .started = false ∧
    bridgeDeliver (some ⟨false⟩) .stopped = false := by
  decide

/-- Claim C7, amended: the bridge forwards exactly the progress, completed
and error signals, delivering each precisely when the window exists and
is not destroyed, and silently dropping it (the delivery function is
total, never raising) otherwise; started and stopped signals are never
forwarded at all. -/
theorem c7_bridge_policy (w : MainWindow) (sig : LifeSignal) :
    bridgeDeliver (some w) sig = (bridgeForwards sig && !w.destroyed) ∧
    bridgeDeliver none sig = false ∧
    bridgeForwards .progress = true ∧
    bridgeForwards .completed = true ∧
    bridgeForwards .errored = true ∧
    bridgeForwards .started = false ∧
    bridgeForwards .stopped = false := by
  rcases w with ⟨d⟩
  cases d <;> cases sig <;> decide

/-- Claim C10: the frame-rate parser is total and never divides by zero: when
the field after the slash is absent, NaN or zero the result is 0, and
otherwise the result is the JS division of the first field by the
(nonzero) second field. -/
theorem c10_parse_fps_total (s : String) :
    (((splitSep '/' s.toList).map jsNumberChars)[1]? = none → parseFps s = .num 0) ∧
    (((splitSep '/' s.toList).map jsNumberChars)[1]? = some .nan → parseFps s = .num 0) ∧
    (((splitSep '/' s.toList).map jsNumberChars)[1]? = some (.num 0) → parseFps s = .num 0) ∧
    (∀ n : JSNum, ∀ q : JRat,
        ((splitSep '/' s.toList).map jsNumberChars)[0]? = some n →
        ((splitSep '/' s.toList).map jsNumberChars)[1]? = some (.num q) → q ≠ 0 →
        parseFps s = jsDiv n q) := by
  rcases hl : (splitSep '/' s.toList).map jsNumberChars with _ | ⟨n0, _ | ⟨d0, rest⟩⟩ <;>
    simp only [String.toList] at hl
  · exact ⟨fun _ => by simp [parseFps, hl], fun h => by simp [hl] at h,
      fun h => by simp [hl] at h, fun n q hn hd hq => by simp [hl] at hd⟩
  · exact ⟨fun _ => by simp [parseFps, hl], fun h => by simp [hl] at h,
      fun h => by simp [hl] at h, fun n q hn hd hq => by simp [hl] at hd⟩
  · refine ⟨fun h => by simp [hl] at h, ?_, ?_, ?_⟩
    · intro h
      simp [hl] at h
      simp [parseFps, hl, h]
    · intro h
      simp [hl] at h
      simp [parseFps, hl, h]
    · intro n q hn hd hq
      simp [hl] at hn hd
      simp [parseFps, hl, hn, hd, hq]

/-- Witness for C10 at "30000/1001" (nonzero denominator) and "25" (no
slash). -/
theorem c10_parse_fps_total_witness :
    parseFps "30000/1001" = jsDiv (.num (JRat.ofInt 30000)) (JRat.ofInt 1001) ∧
    parseFps "25" = .num 0 := by
  refine ⟨(c10_parse_fps_total "30000/1001").2.2.2 (.num (JRat.ofInt 30000)) (JRat.ofInt 1001)
    (by decide) (by decide) (by decide), (c10_parse_fps_total "25").1 (by decide)⟩

/-- Witness for C1 (amended) at concrete inputs: a convert issued while
Running fails with busy and changes nothing, while a merge issued while
Running is not rejected with busy. -/
theorem c1_busy_gate_amended_witness :
    convertVideoStart true (fun _ => true)
        { inputPath := "a.mov", outputPath := "a.mp4", format := .mp4 } =
      ⟨.error .busy, true, 0, []⟩ ∧
    (mergeVideosStart true (fun _ => true) ["a.mp4"] "o.mp4").result ≠ .error .busy := by
  have h := c1_busy_gate_amended (fun _ => true)
    { inputPath := "a.mov", outputPath := "a.mp4", format := .mp4 }
    "a.mov" "a.mp4" .medium ["a.mp4"] "o.mp4" "a.mp4" "a.mp3" "t.png" 10 .mp3
  exact ⟨h.1, h.2.2.1⟩
